import Mathlib

/-!
Verification of the ms-ai-yahoo-finance scheduling and forecasting core.

The definitions below are a shallow embedding of the Python source:
`src/Classes/SchedulerThread.py`, `src/automate_training.py`,
`src/api/endpoints/predict.py`, `src/get_data.py`,
`src/Enums/DefaultDurations.py` and `src/Enums/MaxDurationLimit.py`.

Modelling conventions:
* machine floats become `ℚ` (the claims proved here are structural, not about
  rounding), instants become `Int` (epoch hours for the predict path, epoch
  seconds offsets for the cache TTL arithmetic);
* `yf.download` and the Keras model are opaque collaborators passed as
  parameters, exactly as the spec treats them;
* stateful code (the `cachetools.TTLCache`, the count of upstream calls) is
  passed explicitly: functions return `(result, cache after the call, number
  of upstream downloads performed)`;
* error strings reproduce the source text, except that the Python quotation
  marks around interpolated values are omitted.
-/

namespace Stonks

/-- An exchange-local wall-clock instant as produced by
`datetime.now(...).astimezone(US/Eastern)` in `SchedulerThread._is_market_close`:
`weekday` follows Python `datetime.weekday()` (0 = Monday … 6 = Sunday),
`hour` is 0–23 and `minute` 0–59.  The predicate only reads `weekday` and
`hour`; `minute` is kept so that instants such as 15:59 are representable. -/
structure LocalTime where
  weekday : Nat
  hour : Nat
  minute : Nat
  deriving DecidableEq

/-- `SchedulerThread._is_market_close` (SchedulerThread.py lines 62–74), identical to
`automate_training._is_market_close`:
`return now_in_eastern.weekday() < 5 and now_in_eastern.hour >= 16`. -/
def is_market_close (t : LocalTime) : Bool :=
  decide (t.weekday < 5) && decide (16 ≤ t.hour)

/-- `p` matches the front of the character list. -/
def prefixMatch : List Char → List Char → Bool
  | [], _ => true
  | _ :: _, [] => false
  | p :: ps, c :: cs => p == c && prefixMatch ps cs

/-- `p` matches the back of the character list (Python `str.endswith`). -/
def suffixMatch (p s : List Char) : Bool :=
  prefixMatch p.reverse s.reverse

/-- `p` occurs somewhere in the character list (Python `p in s`). -/
def hasSubstr (p : List Char) : List Char → Bool
  | [] => prefixMatch p []
  | c :: cs => prefixMatch p (c :: cs) || hasSubstr p cs

/-- Python `s.endswith(p)`. -/
def strEndsWith (s p : String) : Bool := suffixMatch p.toList s.toList

/-- Python `p in s` (substring containment). -/
def strContainsSub (s p : String) : Bool := hasSubstr p.toList s.toList

/-- A directory tree rooted at the create-models directory, as the schedulers
walk it: each entry is a subdirectory name paired with the names of the files
it contains.  (Plain files at the top level are skipped by the code's
`os.path.isdir` check and are therefore not represented.) -/
abbrev JobDirs := List (String × List String)

/-- `SchedulerThread._run_all_files` (lines 43–60): for every subdirectory, every
file ending in `.py` is launched via `subprocess.Popen`; the launched paths are
returned in directory order. -/
def run_all_files (dirs : JobDirs) : List String :=
  (dirs.map fun d =>
    (d.2.filter fun f => strEndsWith f ".py").map fun f => d.1 ++ "/" ++ f).flatten

/-- `SchedulerThread.run_all_files_at_market_close` (lines 76–86): the body of one
scheduler tick.  If `_is_market_close()` is true the whole batch is launched;
the function keeps NO state between ticks — the "Stopping further executions
until market opens" message it prints is not enforced by any guard. -/
def run_all_files_at_market_close (closed : Bool) (dirs : JobDirs) : List String :=
  if closed then run_all_files dirs else []

/-- `SchedulerThread.run_schedule` (lines 88–97): the tick body is executed once
per scheduler period; given the market state observed at each tick, the result
is the per-tick list of launched files. -/
def run_schedule_launches (ticks : List Bool) (dirs : JobDirs) : List (List String) :=
  ticks.map fun c => run_all_files_at_market_close c dirs

/-- `SchedulerThread.run` (lines 36–41) calls `self.run_schedule()` unconditionally:
the `is_refit` flag set in the constructor is never consulted, so a tick of ANY
`SchedulerThread` — including the `is_refit=True` thread started in `main.py` —
behaves as a `run_schedule` tick. -/
def schedulerThread_tick (is_refit : Bool) (closed : Bool) (dirs : JobDirs) : List String :=
  run_all_files_at_market_close closed dirs

/-- `SchedulerThread.run_refit_schedule` (lines 99–107): the loop body contains no
call to `_run_all_files` or to `subprocess` — while the market is closed it
prints a message, and in every case it only sleeps — so the list of files
launched on a tick is empty for every market state and every directory. -/
def run_refit_tick (closed : Bool) (dirs : JobDirs) : List String :=
  []

/-- `automate_training._run_all_files` (automate_training.py lines 10–25): like
`SchedulerThread._run_all_files` but with an optional filter keeping only files
whose name contains `1m`. -/
def automate_run_all_files (dirs : JobDirs) (filter_1m : Bool) : List String :=
  (dirs.map fun d =>
    ((if filter_1m then d.2.filter fun f => strEndsWith f ".py" && strContainsSub f "1m"
      else d.2.filter fun f => strEndsWith f ".py").map fun f => d.1 ++ "/" ++ f)).flatten

/-- `automate_training.run_refit_schedule` (lines 52–59): one tick launches the
`1m`-filtered batch when the market is NOT closed, and nothing otherwise. -/
def automate_run_refit_tick (closed : Bool) (dirs : JobDirs) : List String :=
  if !closed then automate_run_all_files dirs true else []

/-- The create_models directory tree actually shipped in the repository. -/
def create_models_demo : JobDirs :=
  [("DIS", ["create_5m_DIS_model.py"]),
   ("NVDA", ["create_1h_NVDA_model.py"]),
   ("TSLA", ["create_5m_TSLA_model.py"])]

/-- A directory tree holding both a fast-cadence (`1m`) job and a slower one. -/
def refit_demo : JobDirs :=
  [("AAPL", ["create_1m_AAPL_model.py", "create_1h_AAPL_model.py"])]

/-- C1 (code bug): across two consecutive ticks that both report Closed,
`SchedulerThread.run_schedule` launches the full (non-empty) batch on BOTH
ticks, not once: the tick body keeps no state, so the debounce announced by
its own "Stopping further executions until market opens" message never
happens. -/
theorem retrain_full_batch_relaunched_every_closed_tick :
    run_schedule_launches [true, true] create_models_demo =
      [run_all_files create_models_demo, run_all_files create_models_demo] ∧
    run_all_files create_models_demo ≠ [] := by
  constructor
  · rfl
  · decide

/-- C2 counterexample: the claim says every Saturday instant yields Closed
(`Saturday 12:00 local → Closed`), but `_is_market_close` returns
`weekday < 5 and hour >= 16`, which is `False` (Open) on Saturday noon. -/
theorem market_close_saturday_open :
    is_market_close ⟨5, 12, 0⟩ = false := by decide

/-- C2 (amended): for every Eastern-local instant, a weekday (Mon–Fri) instant
at or after the 16:00 close hour yields Closed; a weekday instant in hour 15
(in particular one minute before close, 15:59) yields Open; and every Saturday
or Sunday instant yields Open, not Closed. -/
theorem market_close_weekday_gate (t : LocalTime) :
    (t.weekday < 5 → 16 ≤ t.hour → is_market_close t = true) ∧
    (t.weekday < 5 → t.hour = 15 → is_market_close t = false) ∧
    (5 ≤ t.weekday → is_market_close t = false) := by
  refine ⟨fun h1 h2 => ?_, fun h1 h2 => ?_, fun h1 => ?_⟩ <;>
    simp [is_market_close] <;> omega

/-- Witness for C2's amended theorem: Friday 16:00 → Closed, Friday 15:59 →
Open, Sunday 12:00 → Open. -/
theorem market_close_weekday_gate_witness :
    is_market_close ⟨4, 16, 0⟩ = true ∧
    is_market_close ⟨4, 15, 59⟩ = false ∧
    is_market_close ⟨6, 12, 0⟩ = false :=
  ⟨(market_close_weekday_gate ⟨4, 16, 0⟩).1 (by decide) (by decide),
   (market_close_weekday_gate ⟨4, 15, 59⟩).2.1 (by decide) (by decide),
   (market_close_weekday_gate ⟨6, 12, 0⟩).2.2 (by decide)⟩

/-- C3 (code bug): at a tick where the market is Open,
`SchedulerThread.run_refit_schedule` launches nothing at all; the thread
constructed with `is_refit = True` in `main.py` (whose `run` ignores the flag
and runs `run_schedule`) also launches nothing while Open but launches the
FULL batch — not the 1m subset — while Closed.  The claimed behaviour (launch
exactly the 1m-tagged subset while Open, nothing while Closed) is what
`automate_training.run_refit_schedule` implements. -/
theorem refit_tick_launches_nothing :
    run_refit_tick false refit_demo = [] ∧
    schedulerThread_tick true false refit_demo = [] ∧
    schedulerThread_tick true true refit_demo = run_all_files refit_demo ∧
    run_all_files refit_demo ≠ ["AAPL/create_1m_AAPL_model.py"] ∧
    automate_run_refit_tick false refit_demo = ["AAPL/create_1m_AAPL_model.py"] := by
  refine ⟨rfl, rfl, rfl, by decide, by decide⟩

/-- A row of the dataframe returned by `yf.download`: a timestamp (epoch hours)
and the Close value, `none` standing for NaN (dropped by `dropna`). -/
abbrev Row := Int × Option ℚ

/-- The Close series kept after `df[["Close"]].dropna()`: index plus value. -/
abbrev Series := List (Int × ℚ)

/-- The `TTLCache(maxsize=100, ttl=600)` of predict.py, keyed by the string
`f"{stock_name}_{period}_{interval}"`: each entry stores the cleaned series and
the instant at which it expires (insertion time + ttl).  The maxsize-100 LRU
eviction is not modelled: every claim handled here touches at most two keys. -/
abbrev Cache := List (String × Series × Int)

/-- `ttl=600` of the `TTLCache` constructor (seconds). -/
def cache_ttl : Int := 600

/-- `key in cache` / `cache[key]` of `cachetools.TTLCache`: an entry is visible
while `now < expiresAt` and invisible from its expiry instant on. -/
def cacheLookup (now : Int) (c : Cache) (key : String) : Option Series :=
  match c.find? (fun e => e.1 == key) with
  | some e => if now < e.2.2 then some e.2.1 else none
  | none => none

/-- `cache[key] = v`: replaces any previous entry for the key and stamps the
new entry with `expiresAt = now + ttl`. -/
def cacheInsert (now : Int) (c : Cache) (key : String) (v : Series) : Cache :=
  (key, v, now + cache_ttl) :: c.filter fun e => !(e.1 == key)

/-- An `APIRaisedError(status, message)` (Classes/APIRaisedError.py). -/
structure APIError where
  status : Int
  message : String
  deriving DecidableEq

/-- `df[["Close"]].dropna()`: keep the rows whose Close is not NaN. -/
def dropna (df : List Row) : Series :=
  df.filterMap fun r => r.2.map fun c => (r.1, c)

/-- `fetch_stock_data` (predict.py lines 28–56).  `download` is the opaque
`yf.download` collaborator.  Returns the function's result, the cache after
the call, and the number of upstream downloads performed (0 or 1). -/
def fetch_stock_data (download : String → String → String → List Row) (now : Int)
    (cache : Cache) (stock_name period interval : String) :
    Except APIError Series × Cache × Nat :=
  let key := stock_name ++ "_" ++ period ++ "_" ++ interval
  match cacheLookup now cache key with
  | some v => (.ok v, cache, 0)
  | none =>
    let df := download stock_name period interval
    if df.isEmpty then
      (.error ⟨404, "No data found for the specified stock."⟩, cache, 1)
    else
      let cleaned := dropna df
      (.ok cleaned, cacheInsert now cache key cleaned, 1)

/-- Python `str.strip()` on a character list. -/
def stripWhitespace (cs : List Char) : List Char :=
  ((cs.dropWhile Char.isWhitespace).reverse.dropWhile Char.isWhitespace).reverse

/-- Digit run of a Python decimal int literal after its first digit: further
digits with single interior underscores (`int("1_0")` is 10, `int("1_")` and
`int("1__0")` raise `ValueError`). -/
def pyDigits : Nat → List Char → Option Nat
  | acc, [] => some acc
  | acc, '_' :: c :: cs =>
    if c.isDigit then pyDigits (acc * 10 + (c.toNat - 48)) cs else none
  | _, ['_'] => none
  | acc, c :: cs =>
    if c.isDigit then pyDigits (acc * 10 + (c.toNat - 48)) cs else none

/-- An unsigned Python decimal int literal: at least one leading digit. -/
def pyUnsigned : List Char → Option Nat
  | [] => none
  | c :: cs => if c.isDigit then pyDigits (c.toNat - 48) cs else none

/-- Python `int(s)` on a string: optional surrounding whitespace, an optional
sign, then a digit run; `none` models `ValueError`. -/
def pyInt? (s : String) : Option Int :=
  match stripWhitespace s.toList with
  | '+' :: cs => (pyUnsigned cs).map Int.ofNat
  | '-' :: cs => (pyUnsigned cs).map fun n => -(Int.ofNat n)
  | cs => (pyUnsigned cs).map Int.ofNat

/-- Minimum of a Close column (sklearn `data_min_`); 0 on the empty column,
where sklearn would refuse to fit. -/
def listMin : List ℚ → ℚ
  | [] => 0
  | x :: xs => xs.foldl min x

/-- Maximum of a Close column (sklearn `data_max_`). -/
def listMax : List ℚ → ℚ
  | [] => 0
  | x :: xs => xs.foldl max x

/-- sklearn `_handle_zeros_in_scale`: a zero data range scales by 1. -/
def handleZeros (r : ℚ) : ℚ := if r = 0 then 1 else r

/-- `MinMaxScaler.fit_transform` on a single column with the default (0, 1)
feature range: `x ↦ (x - min) / (max - min)`. -/
def minmax_fit_transform (xs : List ℚ) : List ℚ :=
  let mn := listMin xs
  let scale := handleZeros (listMax xs - mn)
  xs.map fun x => (x - mn) / scale

/-- `MinMaxScaler.inverse_transform` with the parameters fitted on `fitted`:
`y ↦ y * (max - min) + min`. -/
def minmax_inverse_transform (fitted ys : List ℚ) : List ℚ :=
  let mn := listMin fitted
  let scale := handleZeros (listMax fitted - mn)
  ys.map fun y => y * scale + mn

/-- `create_sequences` (get_data.py lines 79–99), X component: the windows
`datas[i : i + seq_length]` for `i in range(len(datas) - seq_length)` —
empty whenever `len(datas) ≤ seq_length` (Python `range` of a non-positive
bound, `Nat` truncated subtraction here). -/
def create_sequences (datas : List ℚ) (seq_length : Nat) : List (List ℚ) :=
  (List.range (datas.length - seq_length)).map fun i => (datas.drop i).take seq_length

/-- `DefaultDurations.ONE_HOUR.get_duration("PREDICT")` (DefaultDurations.py). -/
def DefaultDurations_ONE_HOUR_PREDICT : Int := 5

/-- `MaxDurationLimit.ONE_HOUR.get_limit("PREDICT")` (MaxDurationLimit.py). -/
def MaxDurationLimit_ONE_HOUR_PREDICT : Int := 6

/-- The failure result of `predict_data`: either an `APIRaisedError(status,
message)` or any other exception (e.g. the `IndexError` from `x_seq[-1]` on an
empty array), which the route handler maps to a generic 500. -/
inductive PredictError where
  | api : Int → String → PredictError
  | internal : String → PredictError
  deriving DecidableEq

/-- Lines 92–98 of `predict_data`: keep the default when no duration is given,
otherwise `int(duration)`, turning `ValueError` into a 422. -/
def resolve_duration (default_duration : Int) (duration : Option String) :
    Except PredictError Int :=
  match duration with
  | none => .ok default_duration
  | some s =>
    match pyInt? s with
    | some d => .ok d
    | none => .error (.api 422 "Duration should be an integer.")

/-- The f-string of lines 101–104. -/
def duration_range_message (max_duration : Int) (interval : String) : String :=
  "Duration must be between 1 and " ++ toString max_duration ++
    " for interval " ++ interval ++ "."

/-- One iteration of the predict loop (lines 130–136): `pred =
model.predict(last_seq)`, then `last_seq = np.append(last_seq[:, 1:, :],
pred)` drops the oldest point of the window and appends the prediction. -/
def predict_step (model : List ℚ → ℚ) (seq : List ℚ) : ℚ × List ℚ :=
  let pred := model seq
  (pred, seq.drop 1 ++ [pred])

/-- The `for i in range(duration)` loop of `predict_data` (lines 129–140),
started at index `i` with `n` iterations left: returns the scaled predictions
and the timestamps `last_timestamp + timedelta(hours=i+1)` (epoch hours). -/
def predict_loop (model : List ℚ → ℚ) (last_timestamp : Int) :
    Nat → Nat → List ℚ → List ℚ × List Int
  | _, 0, _ => ([], [])
  | i, n + 1, seq =>
    let s := predict_step model seq
    let rest := predict_loop model last_timestamp (i + 1) n s.2
    (s.1 :: rest.1, (last_timestamp + ((i : Int) + 1)) :: rest.2)

/-- The sequence of model-input windows consumed by the predict loop: the
window of iteration 0 is the initial `last_seq`, and each later window is the
previous one with its oldest element dropped and the model's own previous
prediction appended. -/
def predict_windows (model : List ℚ → ℚ) : Nat → List ℚ → List (List ℚ)
  | 0, _ => []
  | n + 1, seq => seq :: predict_windows model n (predict_step model seq).2

/-- `predict_data` (predict.py lines 59–147).  The collaborators are opaque
parameters: `download` is `yf.download`, `model_exists` is
`os.path.exists(model_path)`, `load_model` is `keras.models.load_model`
(error string on failure) and a loaded model maps a window to its predicted
scaled point.  Returns the result of the body, the cache after the call, and
the number of upstream downloads performed. -/
def predict_data (download : String → String → String → List Row)
    (model_exists : Bool) (load_model : Except String (List ℚ → ℚ))
    (now : Int) (cache : Cache)
    (stock_name interval : String) (duration : Option String) :
    Except PredictError (List ℚ × List Int) × Cache × Nat :=
  if interval = "1h" then
    -- the "1h" branch sets max_duration := MaxDurationLimit_ONE_HOUR_PREDICT,
    -- default_duration := DefaultDurations_ONE_HOUR_PREDICT and period := "2y";
    -- these locals are inlined below
    match resolve_duration DefaultDurations_ONE_HOUR_PREDICT duration with
    | .error e => (.error e, cache, 0)
    | .ok d =>
      if d > MaxDurationLimit_ONE_HOUR_PREDICT ∨ d < 1 then
        (.error (.api 400
          (duration_range_message MaxDurationLimit_ONE_HOUR_PREDICT interval)), cache, 0)
      else
        match fetch_stock_data download now cache stock_name "2y" interval with
        | (.error e, c2, k) => (.error (.api e.status e.message), c2, k)
        | (.ok df, c2, k) =>
          -- closes := df (the Close column), scaled_data := fit_transform closes,
          -- x_seq := create_sequences(scaled_data); x_seq[-1] raises IndexError
          -- when x_seq is empty
          match (create_sequences (minmax_fit_transform (df.map Prod.snd)) 20).getLast? with
          | none =>
            (.error (.internal "index -1 is out of bounds for axis 0 with size 0"), c2, k)
          | some last_seq =>
            if model_exists then
              match load_model with
              | .error msg => (.error (.api 500 ("Error loading model: " ++ msg)), c2, k)
              | .ok model =>
                match (df.map Prod.fst).getLast? with
                | none => (.error (.internal "index -1 is out of bounds"), c2, k)
                | some last_timestamp =>
                  (.ok (minmax_inverse_transform (df.map Prod.snd)
                          (predict_loop model last_timestamp 0 d.toNat last_seq).1,
                        (predict_loop model last_timestamp 0 d.toNat last_seq).2), c2, k)
            else (.error (.api 404 "Model file not found for specified stock."), c2, k)
  else (.error (.api 400 ("Unsupported interval " ++ interval ++ ".")), cache, 0)

/-- The body of a `PredictResponse` (Classes/APIResponseModel.py). -/
structure PredictResponse where
  success : Bool
  status : Int
  message : String
  data : Option (List ℚ × List Int)
  deriving DecidableEq

/-- The `/predict` route handler (predict.py lines 150–197): an
`APIRaisedError` keeps its status and message, any other exception becomes a
500 "Internal server error", and a success is wrapped with status 200. -/
def predict (download : String → String → String → List Row)
    (model_exists : Bool) (load_model : Except String (List ℚ → ℚ))
    (now : Int) (cache : Cache)
    (stock_name interval : String) (duration : Option String) :
    PredictResponse × Cache × Nat :=
  match predict_data download model_exists load_model now cache stock_name interval duration with
  | (.ok d, c2, k) =>
    ({ success := true, status := 200,
       message := "Predictions made successfully.", data := some d }, c2, k)
  | (.error (.api s m), c2, k) =>
    ({ success := false, status := s, message := m, data := none }, c2, k)
  | (.error (.internal m), c2, k) =>
    ({ success := false, status := 500,
       message := "Internal server error: " ++ m, data := none }, c2, k)

/-- An upstream that always returns an empty dataframe. -/
def no_download : String → String → String → List Row := fun _ _ _ => []

/-- 25 hourly rows with Close prices 0, 1, …, 24 — enough to build a window. -/
def demo_rows : List Row := (List.range 25).map fun i => ((i : Int), some (i : ℚ))

/-- An upstream that always returns `demo_rows`. -/
def demo_download : String → String → String → List Row := fun _ _ _ => demo_rows

/-- A loaded model: predicts the oldest point of its window. -/
def demo_model : List ℚ → ℚ := fun w => w.headD 0

/-- The cache after one miss for `AAPL/2y/1h` served from `demo_rows` at t=0. -/
def demo_cache1 : Cache := cacheInsert 0 [] "AAPL_2y_1h" (dropna demo_rows)

/-- C6: for every duration string that Python `int()` cannot parse,
`predict_data` fails with status 422 "Duration should be an integer." before
any upstream download happens: the cache is returned unchanged and the
upstream call count of the request is 0. -/
theorem non_integer_duration_rejected_before_fetch
    (download : String → String → String → List Row) (model_exists : Bool)
    (load_model : Except String (List ℚ → ℚ)) (now : Int) (cache : Cache)
    (stock_name s : String) (h : pyInt? s = none) :
    predict_data download model_exists load_model now cache stock_name "1h" (some s) =
      (.error (.api 422 "Duration should be an integer."), cache, 0) := by
  simp [predict_data, resolve_duration, h]

/-- Witness for C6 at the unparseable duration string "abc". -/
theorem non_integer_duration_rejected_before_fetch_witness :
    pyInt? "abc" = none ∧
    predict_data no_download true (.error "missing") 0 [] "AAPL" "1h" (some "abc") =
      (.error (.api 422 "Duration should be an integer."), [], 0) :=
  ⟨by decide,
   non_integer_duration_rejected_before_fetch no_download true (.error "missing")
     0 [] "AAPL" "abc" (by decide)⟩

/-- C7: for a key with no cache entry, an empty upstream download makes
`fetch_stock_data` raise 404 and leaves the cache unchanged — no entry is
stored — so an identical later request (at any time) downloads upstream
again instead of being served a cached negative. -/
theorem empty_fetch_not_cached
    (download : String → String → String → List Row) (now now2 : Int) (cache : Cache)
    (stock_name period interval : String)
    (hmiss : cache.find?
      (fun e => e.1 == stock_name ++ "_" ++ period ++ "_" ++ interval) = none)
    (hempty : download stock_name period interval = []) :
    fetch_stock_data download now cache stock_name period interval =
      (.error ⟨404, "No data found for the specified stock."⟩, cache, 1) ∧
    fetch_stock_data download now2 cache stock_name period interval =
      (.error ⟨404, "No data found for the specified stock."⟩, cache, 1) := by
  constructor <;> simp [fetch_stock_data, cacheLookup, hmiss, hempty]

/-- Witness for C7: empty upstream, empty cache, two calls at t=0 and t=700. -/
theorem empty_fetch_not_cached_witness :
    ([] : Cache).find?
      (fun e => e.1 == "AAPL" ++ "_" ++ "2y" ++ "_" ++ "1h") = none ∧
    no_download "AAPL" "2y" "1h" = [] ∧
    (fetch_stock_data no_download 0 [] "AAPL" "2y" "1h" =
       (.error ⟨404, "No data found for the specified stock."⟩, [], 1) ∧
     fetch_stock_data no_download 700 [] "AAPL" "2y" "1h" =
       (.error ⟨404, "No data found for the specified stock."⟩, [], 1)) :=
  ⟨rfl, rfl, empty_fetch_not_cached no_download 0 700 [] "AAPL" "2y" "1h" rfl rfl⟩

/-- C8: starting from a key with no cache entry and a non-empty upstream
series, the first `fetch_stock_data` call downloads once and stores the
cleaned series with `expiresAt = now + ttl`; a second call strictly inside the
TTL window returns the stored series with no upstream call (one download in
total for the two calls); a call at or after expiry downloads again. -/
theorem cache_hit_within_ttl
    (download : String → String → String → List Row) (now now2 now3 : Int)
    (cache : Cache) (stock_name period interval key : String) (df : List Row)
    (c1 : Cache)
    (hkey : key = stock_name ++ "_" ++ period ++ "_" ++ interval)
    (hdf : download stock_name period interval = df) (hne : df ≠ [])
    (hmiss : cache.find? (fun e => e.1 == key) = none)
    (hc1 : c1 = cacheInsert now cache key (dropna df)) :
    fetch_stock_data download now cache stock_name period interval =
      (.ok (dropna df), c1, 1) ∧
    (now2 < now + cache_ttl →
      fetch_stock_data download now2 c1 stock_name period interval =
        (.ok (dropna df), c1, 0)) ∧
    (now + cache_ttl ≤ now3 →
      (fetch_stock_data download now3 c1 stock_name period interval).2.2 = 1) := by
  subst hkey hc1
  refine ⟨?_, fun h2 => ?_, fun h3 => ?_⟩
  · simp [fetch_stock_data, cacheLookup, hmiss, hdf, hne]
  · simp [fetch_stock_data, cacheLookup, cacheInsert, h2]
  · have h3' : ¬ (now3 < now + cache_ttl) := by omega
    simp [fetch_stock_data, cacheLookup, cacheInsert, h3', hmiss, hdf, hne]

/-- Witness for C8: `demo_rows` served at t=0, re-requested at t=599 (hit, no
download) and at t=600 (expired, second download). -/
theorem cache_hit_within_ttl_witness :
    fetch_stock_data demo_download 0 [] "AAPL" "2y" "1h" =
      (.ok (dropna demo_rows), demo_cache1, 1) ∧
    fetch_stock_data demo_download 599 demo_cache1 "AAPL" "2y" "1h" =
      (.ok (dropna demo_rows), demo_cache1, 0) ∧
    (fetch_stock_data demo_download 600 demo_cache1 "AAPL" "2y" "1h").2.2 = 1 := by
  have h := cache_hit_within_ttl demo_download 0 599 600 [] "AAPL" "2y" "1h"
    "AAPL_2y_1h" demo_rows demo_cache1 (by decide) rfl (by decide) rfl rfl
  exact ⟨h.1, h.2.1 (by decide), h.2.2 (by decide)⟩

/-- C9: for the 1h interval of the predict endpoint, resolving with no
explicit duration yields exactly the tabled default 5 — `predict_data` with no
duration behaves as with the explicit string "5" — and an explicit integer
duration above the tabled maximum 6 or below 1 fails with status 400 and no
upstream call. -/
theorem duration_resolution
    (download : String → String → String → List Row) (model_exists : Bool)
    (load_model : Except String (List ℚ → ℚ)) (now : Int) (cache : Cache)
    (stock_name s : String) (d : Int)
    (hparse : pyInt? s = some d)
    (hout : d > MaxDurationLimit_ONE_HOUR_PREDICT ∨ d < 1) :
    resolve_duration DefaultDurations_ONE_HOUR_PREDICT none = .ok 5 ∧
    predict_data download model_exists load_model now cache stock_name "1h" none =
      predict_data download model_exists load_model now cache stock_name "1h" (some "5") ∧
    predict_data download model_exists load_model now cache stock_name "1h" (some s) =
      (.error (.api 400
        (duration_range_message MaxDurationLimit_ONE_HOUR_PREDICT "1h")), cache, 0) := by
  refine ⟨rfl, rfl, ?_⟩
  simp [predict_data, resolve_duration, hparse, hout]

/-- Witness for C9 at the out-of-range duration string "7". -/
theorem duration_resolution_witness :
    pyInt? "7" = some 7 ∧
    ((7 : Int) > MaxDurationLimit_ONE_HOUR_PREDICT ∨ (7 : Int) < 1) ∧
    (resolve_duration DefaultDurations_ONE_HOUR_PREDICT none = .ok 5 ∧
     predict_data no_download true (.error "missing") 0 [] "AAPL" "1h" none =
       predict_data no_download true (.error "missing") 0 [] "AAPL" "1h" (some "5") ∧
     predict_data no_download true (.error "missing") 0 [] "AAPL" "1h" (some "7") =
       (.error (.api 400
         (duration_range_message MaxDurationLimit_ONE_HOUR_PREDICT "1h")), [], 0)) :=
  ⟨by decide, by decide,
   duration_resolution no_download true (.error "missing") 0 [] "AAPL" "7" 7
     (by decide) (by decide)⟩

/-- The predictions collected by the loop are the model applied to the
successive windows, whatever the loop's timestamp index is. -/
theorem predict_loop_fst (model : List ℚ → ℚ) (T : Int) :
    ∀ (n i : Nat) (w : List ℚ),
      (predict_loop model T i n w).1 = (predict_windows model n w).map model := by
  intro n
  induction n with
  | zero => intro i w; rfl
  | succ n ih =>
    intro i w
    simp [predict_loop, predict_windows, predict_step, ih]

/-- The timestamps collected by the loop started at index `i` are
`T + (i + j + 1)` for `j < n`. -/
theorem predict_loop_snd (model : List ℚ → ℚ) (T : Int) :
    ∀ (n i : Nat) (w : List ℚ),
      (predict_loop model T i n w).2 =
        (List.range n).map fun j => T + (((i + j : Nat) : Int) + 1) := by
  intro n
  induction n with
  | zero => intro i w; rfl
  | succ n ih =>
    intro i w
    have hfun : ∀ j : Nat,
        T + (((i + 1 + j : Nat) : Int) + 1) = T + (((i + (j + 1) : Nat) : Int) + 1) := by
      intro j
      have hj : i + 1 + j = i + (j + 1) := by omega
      rw [hj]
    simp only [predict_loop, ih, List.range_succ_eq_map, List.map_cons, List.map_map]
    refine congrArg₂ List.cons (by simp) ?_
    refine List.map_congr_left fun j _ => ?_
    simpa using hfun j

/-- The loop consumes exactly `n` windows. -/
theorem predict_windows_length (model : List ℚ → ℚ) :
    ∀ (n : Nat) (w : List ℚ), (predict_windows model n w).length = n := by
  intro n
  induction n with
  | zero => intro w; rfl
  | succ n ih => intro w; simp [predict_windows, ih]

/-- Window recurrence: each later window is the previous one with its oldest
element dropped and the model's prediction on it appended. -/
theorem predict_windows_get? (model : List ℚ → ℚ) :
    ∀ (n i : Nat) (w : List ℚ), i + 1 < n →
      (predict_windows model n w).get? (i + 1) =
        ((predict_windows model n w).get? i).map fun wi => wi.drop 1 ++ [model wi] := by
  intro n
  induction n with
  | zero => intro i w h; omega
  | succ n ih =>
    intro i w h
    cases i with
    | zero =>
      cases n with
      | zero => omega
      | succ m => simp [predict_windows, predict_step]
    | succ j =>
      have h' : j + 1 < n := by omega
      simpa [predict_windows] using ih j (predict_step model w).2 h'

/-- A `fetch_stock_data` call performs at most one upstream download. -/
theorem fetch_calls_le_one (download : String → String → String → List Row)
    (now : Int) (cache : Cache) (stock_name period interval : String) :
    (fetch_stock_data download now cache stock_name period interval).2.2 ≤ 1 := by
  simp only [fetch_stock_data]
  split
  · simp
  · split <;> simp

/-- A `predict_data` call performs at most one upstream download in total:
in particular the predict loop never re-fetches ground truth. -/
theorem predict_data_calls_le_one (download : String → String → String → List Row)
    (model_exists : Bool) (load_model : Except String (List ℚ → ℚ))
    (now : Int) (cache : Cache) (stock_name interval : String)
    (duration : Option String) :
    (predict_data download model_exists load_model now cache
      stock_name interval duration).2.2 ≤ 1 := by
  simp only [predict_data]
  split
  · split
    · simp
    · split
      · simp
      · rename_i hiv d hd hrange
        have hk := fetch_calls_le_one download now cache stock_name "2y" interval
        split
        · rename_i e c2 k heq
          rw [heq] at hk
          simpa using hk
        · rename_i df c2 k heq
          rw [heq] at hk
          simp only at hk
          split
          · simpa using hk
          · split
            · split
              · simpa using hk
              · split
                · simpa using hk
                · simpa using hk
            · simpa using hk
  · simp

/-- C5: for every iteration `i` with `i + 1 < duration`, the model-input window
of iteration `i + 1` equals the window of iteration `i` with its oldest element
dropped and the model's own prediction on it appended; the loop's outputs are
exactly the model applied to those windows; and no ground truth is re-fetched
inside the loop — a whole `predict_data` call performs at most one upstream
download. -/
theorem autoregressive_feedback
    (model : List ℚ → ℚ) (T : Int) (n i : Nat) (w : List ℚ) (h : i + 1 < n)
    (download : String → String → String → List Row) (model_exists : Bool)
    (load_model : Except String (List ℚ → ℚ)) (now : Int) (cache : Cache)
    (stock_name interval : String) (duration : Option String) :
    (predict_loop model T 0 n w).1 = (predict_windows model n w).map model ∧
    (predict_windows model n w).get? (i + 1) =
      ((predict_windows model n w).get? i).map (fun wi => wi.drop 1 ++ [model wi]) ∧
    (predict_data download model_exists load_model now cache
      stock_name interval duration).2.2 ≤ 1 :=
  ⟨predict_loop_fst model T n 0 w, predict_windows_get? model n i w h,
   predict_data_calls_le_one download model_exists load_model now cache
     stock_name interval duration⟩

/-- Witness for C5: a 3-step loop over the window `[1, 2]`. -/
theorem autoregressive_feedback_witness :
    (0 : Nat) + 1 < 3 ∧
    ((predict_loop demo_model 0 0 3 [1, 2]).1 =
       (predict_windows demo_model 3 [1, 2]).map demo_model ∧
     (predict_windows demo_model 3 [1, 2]).get? (0 + 1) =
       ((predict_windows demo_model 3 [1, 2]).get? 0).map
         (fun wi => wi.drop 1 ++ [demo_model wi]) ∧
     (predict_data no_download true (.ok demo_model) 0 [] "AAPL" "1h" none).2.2 ≤ 1) :=
  ⟨by decide,
   autoregressive_feedback demo_model 0 3 0 [1, 2] (by decide)
     no_download true (.ok demo_model) 0 [] "AAPL" "1h" none⟩

/-- The generated timestamp sequence is strictly increasing. -/
theorem range_map_timestamps_pairwise (T : Int) (n : Nat) :
    List.Pairwise (· < ·) ((List.range n).map fun i : Nat => T + ((i : Int) + 1)) := by
  refine List.Pairwise.map _ (fun a b hab => ?_) (List.pairwise_lt_range n)
  omega

/-- C4: for every valid forecast input — the supported interval "1h", a
duration that resolves to `d` with `1 ≤ d ≤ 6`, a fetched series with more
than 20 points (enough to build a window) and a loadable model —
`predict_data` succeeds with parallel lists of length `d`, and the i-th
timestamp is lastKnownTimestamp + (i+1) hours, hence the timestamps are
strictly increasing and spaced by exactly one interval step. -/
theorem forecast_parallel_output
    (download : String → String → String → List Row) (model : List ℚ → ℚ)
    (now T : Int) (cache : Cache) (stock_name : String) (duration : Option String)
    (d : Int) (series : Series) (c2 : Cache) (k : Nat)
    (hd : resolve_duration DefaultDurations_ONE_HOUR_PREDICT duration = .ok d)
    (h1 : 1 ≤ d) (h6 : d ≤ MaxDurationLimit_ONE_HOUR_PREDICT)
    (hfetch : fetch_stock_data download now cache stock_name "2y" "1h" =
      (.ok series, c2, k))
    (hlen : 20 < series.length)
    (hT : (series.map Prod.fst).getLast? = some T) :
    ∃ prices,
      predict_data download true (.ok model) now cache stock_name "1h" duration =
        (.ok (prices, (List.range d.toNat).map fun i : Nat => T + ((i : Int) + 1)), c2, k) ∧
      prices.length = d.toNat ∧
      ((List.range d.toNat).map fun i : Nat => T + ((i : Int) + 1)).length = d.toNat ∧
      List.Pairwise (· < ·)
        ((List.range d.toNat).map fun i : Nat => T + ((i : Int) + 1)) := by
  have hrange : ¬ (d > MaxDurationLimit_ONE_HOUR_PREDICT ∨ d < 1) := by
    push_neg
    exact ⟨h6, by omega⟩
  have hxlen : (create_sequences (minmax_fit_transform (series.map Prod.snd)) 20).length
      = series.length - 20 := by
    simp [create_sequences, minmax_fit_transform]
  have hxne : create_sequences (minmax_fit_transform (series.map Prod.snd)) 20 ≠ [] := by
    intro hnil
    rw [hnil] at hxlen
    simp at hxlen
    omega
  have hsome :
      (create_sequences (minmax_fit_transform (series.map Prod.snd)) 20).getLast?.isSome := by
    rw [List.getLast?_isSome]
    exact hxne
  obtain ⟨w, hw⟩ := Option.isSome_iff_exists.mp hsome
  refine ⟨minmax_inverse_transform (series.map Prod.snd)
    (predict_loop model T 0 d.toNat w).1, ?_, ?_, ?_, ?_⟩
  · simp [predict_data, hd, hrange, hfetch, hw, hT, predict_loop_snd]
  · simp [minmax_inverse_transform, predict_loop_fst, predict_windows_length]
  · simp
  · exact range_map_timestamps_pairwise T d.toNat

/-- Witness for C4: duration "3" over `demo_rows` with last timestamp 24. -/
theorem forecast_parallel_output_witness :
    ∃ prices,
      predict_data demo_download true (.ok demo_model) 0 [] "AAPL" "1h" (some "3") =
        (.ok (prices, (List.range (3 : Int).toNat).map
          fun i : Nat => (24 : Int) + ((i : Int) + 1)), demo_cache1, 1) ∧
      prices.length = (3 : Int).toNat ∧
      ((List.range (3 : Int).toNat).map
        fun i : Nat => (24 : Int) + ((i : Int) + 1)).length = (3 : Int).toNat ∧
      List.Pairwise (· < ·)
        ((List.range (3 : Int).toNat).map fun i : Nat => (24 : Int) + ((i : Int) + 1)) :=
  forecast_parallel_output demo_download demo_model 0 24 [] "AAPL" (some "3") 3
    (dropna demo_rows) demo_cache1 1 rfl (by decide) (by decide)
    rfl (by decide) (by decide)

/-- 5 hourly rows — non-empty but too short to build a 20-point window. -/
def short_rows : List Row := (List.range 5).map fun i => ((i : Int), some (i : ℚ))

/-- An upstream that always returns `short_rows`. -/
def short_download : String → String → String → List Row := fun _ _ _ => short_rows

/-- The cache after the short series is fetched (the short series IS cached). -/
def short_cache1 : Cache := cacheInsert 0 [] "AAPL_2y_1h" (dropna short_rows)

/-- C10: when the fetched series is non-empty but has at most 20 points,
`create_sequences` yields no window, indexing `x_seq[-1]` raises, and the
route handler converts the failure into a generic 500 internal-server-error
response (success = false, data = none) — not a 404 NoDataFound and not a
shorter forecast — even when a loadable model exists. -/
theorem short_series_internal_error
    (download : String → String → String → List Row) (model_exists : Bool)
    (load_model : Except String (List ℚ → ℚ)) (now : Int) (cache : Cache)
    (stock_name : String) (duration : Option String) (d : Int)
    (series : Series) (c2 : Cache) (k : Nat)
    (hd : resolve_duration DefaultDurations_ONE_HOUR_PREDICT duration = .ok d)
    (h1 : 1 ≤ d) (h6 : d ≤ MaxDurationLimit_ONE_HOUR_PREDICT)
    (hfetch : fetch_stock_data download now cache stock_name "2y" "1h" =
      (.ok series, c2, k))
    (hne : series ≠ []) (hshort : series.length ≤ 20) :
    predict download model_exists load_model now cache stock_name "1h" duration =
      ({ success := false, status := 500,
         message := "Internal server error: index -1 is out of bounds for axis 0 with size 0",
         data := none }, c2, k) := by
  have hrange : ¬ (d > MaxDurationLimit_ONE_HOUR_PREDICT ∨ d < 1) := by
    push_neg
    exact ⟨h6, by omega⟩
  have hseq : create_sequences (minmax_fit_transform (series.map Prod.snd)) 20 = [] := by
    simp [create_sequences, minmax_fit_transform, List.range_eq_nil]
    omega
  simp [predict, predict_data, hd, hrange, hfetch, hseq]

/-- Witness for C10: the 5-row series with a loadable model and the default
duration still produces the 500 response. -/
theorem short_series_internal_error_witness :
    predict short_download true (.ok demo_model) 0 [] "AAPL" "1h" none =
      ({ success := false, status := 500,
         message := "Internal server error: index -1 is out of bounds for axis 0 with size 0",
         data := none }, short_cache1, 1) :=
  short_series_internal_error short_download true (.ok demo_model) 0 [] "AAPL"
    none 5 (dropna short_rows) short_cache1 1 rfl (by decide) (by decide)
    rfl (by decide) (by decide)

end Stonks
